import Mathlib

/-!
Shallow embedding of the Frizzle travel-planning agent
(`src/agent/agent.py`) and proofs of the specification claims.

Python strings are modelled by Lean `String`, Python ints by `ℤ`/`Nat`,
Python floats by exact fractions (`Frac` below; the float values
appearing in the program are small decimal constants multiplied by
small integers, so the fraction model is exact on every path a claim
touches), Python lists by `List`, and Python dicts with statically
known keys by structures or ordered association lists. The external
network calls of the activity adapter are abstracted by an explicit
parameter holding the would-be network result; the adapter's
credential check is modelled faithfully.
-/

namespace Frizzle

/-- Model of Python `str.lower()` (ASCII; every string the program
compares is ASCII). -/
def pyLower (s : String) : String :=
  ⟨s.toList.map Char.toLower⟩

/-- Helper for `pyTitle`: walks the characters tracking whether the
previous character was alphabetic, as CPython's `str.title` does. -/
def titleAux : List Char → Bool → List Char
  | [], _ => []
  | c :: cs, prevAlpha =>
    (if c.isAlpha then (if prevAlpha then c.toLower else c.toUpper) else c)
      :: titleAux cs c.isAlpha

/-- Model of Python `str.title()`: the first letter of each alphabetic
run is uppercased, the rest lowercased. -/
def pyTitle (s : String) : String :=
  ⟨titleAux s.toList false⟩

/-- Helper for `py_in`: does `needle` occur as a contiguous sublist of
the haystack? -/
def substrAux (needle : List Char) : List Char → Bool
  | [] => needle.isEmpty
  | c :: rest => needle.isPrefixOf (c :: rest) || substrAux needle rest

/-- Model of the Python expression `needle in hay` on strings:
substring containment. -/
def py_in (needle hay : String) : Bool :=
  substrAux needle.toList hay.toList

/-- JSON values produced by the program. Object fields are kept in
insertion order, as Python 3.7+ dicts and `json.dumps` do. -/
inductive Jval where
  | str : String → Jval
  | int : ℤ → Jval
  | bool : Bool → Jval
  | arr : List Jval → Jval
  | obj : List (String × Jval) → Jval

/-- One lowercase hex digit, for `json.dumps` control-character
escapes. -/
def hexDigit (n : Nat) : String :=
  String.mk ["0123456789abcdef".toList.getD n '0']

/-- Escaping of a single character as done by `json.dumps` with
`ensure_ascii=False`: only quotes, backslashes and control characters
are escaped; everything else is kept raw. -/
def jsonEscChar (c : Char) : String :=
  if c = '\"' then "\\\""
  else if c = '\\' then "\\\\"
  else if c = '\n' then "\\n"
  else if c = '\t' then "\\t"
  else if c = '\r' then "\\r"
  else if c = '\x08' then "\\b"
  else if c = '\x0c' then "\\f"
  else if c.toNat < 32 then "\\u00" ++ hexDigit (c.toNat / 16) ++ hexDigit (c.toNat % 16)
  else String.mk [c]

/-- String-body escaping for `json.dumps` with `ensure_ascii=False`. -/
def jsonEscape (s : String) : String :=
  String.join (s.toList.map jsonEscChar)

mutual

/-- Model of `json.dumps(…, ensure_ascii=False)` with the default
separators `", "` and `": "`. -/
def jdump : Jval → String
  | .str s => "\"" ++ jsonEscape s ++ "\""
  | .int n => toString n
  | .bool b => if b then "true" else "false"
  | .arr xs => "[" ++ jdumpArr xs ++ "]"
  | .obj fs => "\x7b" ++ jdumpObj fs ++ "\x7d"

/-- Comma-separated rendering of a JSON array body. -/
def jdumpArr : List Jval → String
  | [] => ""
  | [x] => jdump x
  | x :: y :: rest => jdump x ++ ", " ++ jdumpArr (y :: rest)

/-- Comma-separated rendering of a JSON object body. -/
def jdumpObj : List (String × Jval) → String
  | [] => ""
  | [(k, v)] => "\"" ++ jsonEscape k ++ "\": " ++ jdump v
  | (k, v) :: y :: rest =>
    "\"" ++ jsonEscape k ++ "\": " ++ jdump v ++ ", " ++ jdumpObj (y :: rest)

end

/-! ## Checklist builder (`_generate_checklist`) -/

/-- One checklist item: `{"label": …, "checked": …}`. -/
structure ChecklistItem where
  label : String
  checked : Bool
deriving DecidableEq, Inhabited

/-- One checklist section: `{"title": …, "items": […]}`. -/
structure ChecklistSection where
  title : String
  items : List ChecklistItem
deriving DecidableEq, Inhabited

/-- The checklist payload dict built by `_generate_checklist`. -/
structure ChecklistPayload where
  type : String
  version : ℤ
  title : String
  destination : String
  context : String
  sections : List ChecklistSection
deriving DecidableEq, Inhabited

/-- JSON rendering of a checklist item, field order as in the source. -/
def ChecklistItem.toJ (it : ChecklistItem) : Jval :=
  .obj [("label", .str it.label), ("checked", .bool it.checked)]

/-- JSON rendering of a checklist section, field order as in the source. -/
def ChecklistSection.toJ (s : ChecklistSection) : Jval :=
  .obj [("title", .str s.title), ("items", .arr (s.items.map ChecklistItem.toJ))]

/-- JSON rendering of the checklist payload, field order as in the source. -/
def ChecklistPayload.toJ (p : ChecklistPayload) : Jval :=
  .obj [("type", .str p.type), ("version", .int p.version), ("title", .str p.title),
        ("destination", .str p.destination), ("context", .str p.context),
        ("sections", .arr (p.sections.map ChecklistSection.toJ))]

/-- The dict returned by `_generate_checklist`:
`{"markdown": …, "json_tag": …, "data": …}`. -/
structure ChecklistResult where
  markdown : String
  json_tag : String
  data : ChecklistPayload
deriving DecidableEq, Inhabited

/-- The fixed section list built inside `_generate_checklist`. -/
def checklistSections : List ChecklistSection :=
  [ { title := "Before You Go",
      items :=
        [ { label := "Book flights", checked := false },
          { label := "Reserve accommodation", checked := false },
          { label := "Check passport validity (>6 months)", checked := false },
          { label := "Apply for visa if needed", checked := false },
          { label := "Get travel insurance", checked := false },
          { label := "Notify bank of travel plans", checked := false },
          { label := "Check vaccination requirements", checked := false } ] },
    { title := "Pack & Prepare",
      items :=
        [ { label := "Pack according to weather", checked := false },
          { label := "Bring necessary adapters", checked := false },
          { label := "Download offline maps", checked := false },
          { label := "Learn basic local phrases", checked := false },
          { label := "Research local customs", checked := false },
          { label := "Exchange currency or get travel card", checked := false } ] },
    { title := "During Trip",
      items :=
        [ { label := "Check in for flights", checked := false },
          { label := "Confirm accommodations", checked := false },
          { label := "Keep important documents safe", checked := false },
          { label := "Stay hydrated and healthy", checked := false } ] } ]

/-- Model of `_generate_checklist(destination, context)`. The title
branch mirrors Python truthiness of `destination` (empty string is
falsy). -/
def _generate_checklist (destination : String := "") (context : String := "trip") :
    ChecklistResult :=
  let title :=
    if destination = "" then pyTitle context ++ " Checklist"
    else pyTitle destination ++ " " ++ pyTitle context ++ " Checklist"
  let sections := checklistSections
  let payload : ChecklistPayload :=
    { type := "checklist", version := 1, title := title,
      destination := destination, context := context, sections := sections }
  let json_tag := "```json checklist\n" ++ jdump payload.toJ ++ "\n```"
  let md_lines :=
    ["## ✅ " ++ title] ++
      (sections.map (fun sec =>
        ("\n### " ++ sec.title) :: sec.items.map (fun item => "- [ ] " ++ item.label))).flatten
  { markdown := String.intercalate "\n" md_lines, json_tag := json_tag, data := payload }

/-! ## Activity source adapter (`_fetch_activities_from_api`) -/

/-- An activity record `{name, description, category}`. -/
structure Activity where
  name : String
  description : String
  category : String
deriving DecidableEq, Inhabited

/-- Model of `_fetch_activities_from_api`. The `apiKey` parameter is
the value of `os.getenv("OPENTRIPMAP_API_KEY")` (`none` when the
variable is unset); `net` abstracts the list the network code of the
`try` block would produce (any exception there yields `[]`, which `net`
can also be). The guard mirrors `if not api_key: return []`, on which
both the unset and the empty-string case are falsy. -/
def _fetch_activities_from_api (apiKey : Option String) (net : List Activity) :
    List Activity :=
  match apiKey with
  | none => []
  | some k => if k = "" then [] else net

/-- The static fallback catalog keyed by travel style, in source
order. -/
def catalog : List (String × List Activity) :=
  [ ("adventure",
      [ { name := "Scenic Hiking Trail", description := "Half-day hike with panoramic views.", category := "Hiking" },
        { name := "Kayaking Experience", description := "Guided paddle through calm waters.", category := "Water Sports" },
        { name := "Sunset Viewpoint", description := "Short climb to catch golden hour.", category := "Outdoors" } ]),
    ("relaxed",
      [ { name := "Spa & Wellness Session", description := "45–60 min massage or spa treatment.", category := "Wellness" },
        { name := "Cafe Hopping", description := "Leisurely cafes with pastries and coffee.", category := "Leisure" },
        { name := "Park Stroll", description := "Light walk under trees and gardens.", category := "Parks" } ]),
    ("cultural",
      [ { name := "Heritage Museum Visit", description := "Explore key exhibits and galleries.", category := "Museum" },
        { name := "Historic District Walk", description := "Streets with architecture and landmarks.", category := "History" },
        { name := "Theater or Live Show", description := "Local performance for an evening.", category := "Arts" } ]),
    ("food",
      [ { name := "Market Food Tour", description := "Taste local bites and specialties.", category := "Food" },
        { name := "Cooking Class", description := "Hands-on class making regional dishes.", category := "Class" },
        { name := "Street Eats Crawl", description := "Popular snacks across a few blocks.", category := "Food" } ]),
    ("balanced",
      [ { name := "City Highlights Walk", description := "Iconic spots in a compact route.", category := "Sightseeing" },
        { name := "Local Lunch Spot", description := "Casual eatery with regional flavors.", category := "Food" },
        { name := "Riverside Evening", description := "Sunset views and light snacks.", category := "Leisure" } ]) ]

/-- The catalog's `"balanced"` entry, the default of
`catalog.get(travel_style, catalog["balanced"])`. -/
def balancedActivities : List Activity :=
  [ { name := "City Highlights Walk", description := "Iconic spots in a compact route.", category := "Sightseeing" },
    { name := "Local Lunch Spot", description := "Casual eatery with regional flavors.", category := "Food" },
    { name := "Riverside Evening", description := "Sunset views and light snacks.", category := "Leisure" } ]

/-- Model of `catalog.get(travel_style, catalog["balanced"])`. -/
def catalogGet (travel_style : String) : List Activity :=
  (catalog.lookup travel_style).getD balancedActivities

/-- The pool choice `activities = fetched if fetched else catalog.get(…)`
(line 259): an empty fetch result is falsy, so the static catalog is
used. -/
def activitiesFor (fetched : List Activity) (travel_style : String) : List Activity :=
  if fetched.isEmpty then catalogGet travel_style else fetched

/-! ## Currency and money (`_generate_itinerary_data` preamble) -/

/-- A currency dict `{"code": …, "symbol": …}`. -/
structure Currency where
  code : String
  symbol : String
deriving DecidableEq, Inhabited

/-- The `currency_map` destination → currency table. -/
def currency_map : List (String × Currency) :=
  [ ("tokyo", { code := "JPY", symbol := "¥" }),
    ("paris", { code := "EUR", symbol := "€" }),
    ("bali", { code := "IDR", symbol := "Rp" }) ]

/-- Model of `currency_map.get(destination.lower(), {"code": "USD",
"symbol": "$"})`: exact dict lookup on the lowercased destination. -/
def currencyOf (destination : String) : Currency :=
  (currency_map.lookup (pyLower destination)).getD { code := "USD", symbol := "$" }

/-- Exact fraction model of the Python floats flowing through the money
computation. The program's floats are small decimal constants
(`1.0`, `0.95`, `150.0`, `16000.0`) multiplied by small integers; every
value a claim touches is computed exactly by double-precision floats as
well (the only inexact double, `0.95`, feeds a path whose claims depend
only on the result being an integer), so the fraction model agrees with
CPython on all of them. Fractions are kept unreduced; the denominator
is positive in every value the program builds. -/
structure Frac where
  num : ℤ
  den : ℤ
deriving DecidableEq, Inhabited

/-- Embedding of an integer (or integral float) into `Frac`. -/
def Frac.ofInt (n : ℤ) : Frac := { num := n, den := 1 }

instance : OfNat Frac n := ⟨Frac.ofInt n⟩

/-- Float multiplication on the fraction model. -/
def Frac.mul (a b : Frac) : Frac := { num := a.num * b.num, den := a.den * b.den }

/-- Float division by a (positive) integer on the fraction model. -/
def Frac.divInt (a : Frac) (u : ℤ) : Frac := { num := a.num, den := a.den * u }

/-- The `scale_map` USD → local-currency scaling factors (floats in the
source, exact fractions here; `0.95` is `95/100`). -/
def scale_map : List (String × Frac) :=
  [ ("USD", Frac.ofInt 1), ("EUR", { num := 95, den := 100 }),
    ("JPY", Frac.ofInt 150), ("IDR", Frac.ofInt 16000) ]

/-- The `rounding_unit` table. -/
def rounding_unit : List (String × ℤ) :=
  [("USD", 1), ("EUR", 1), ("JPY", 50), ("IDR", 1000)]

/-- `scale = scale_map.get(currency["code"], 1.0)`. -/
def scaleOf (code : String) : Frac :=
  (scale_map.lookup code).getD (Frac.ofInt 1)

/-- `unit = rounding_unit.get(currency["code"], 1)`. -/
def unitOf (code : String) : ℤ :=
  (rounding_unit.lookup code).getD 1

/-- Python 3 `round` with no second argument on the fraction `q`
(with positive denominator): round half to even, returning an
integer. `f` is the floor of `q` and `r` its (nonnegative) remainder
numerator, so `q - f = r / q.den`. -/
def pyRound (q : Frac) : ℤ :=
  let f := q.num.fdiv q.den
  let r := q.num - f * q.den
  if 2 * r < q.den then f
  else if q.den < 2 * r then f + 1
  else if f % 2 = 0 then f else f + 1

/-- A money dict `{"estimate": int, "currency": code}`. -/
structure Money where
  estimate : ℤ
  currency : String
deriving DecidableEq, Inhabited

/-- JSON rendering of a money dict, field order as in the source. -/
def Money.toJ (m : Money) : Jval :=
  .obj [("estimate", .int m.estimate), ("currency", .str m.currency)]

/-- Model of the closure `to_money(amount_usd)` inside
`_generate_itinerary_data`: scale the USD baseline to the destination's
currency and round to the currency's unit,
`int(max(0, round(raw / unit) * unit))`. -/
def to_money (destination : String) (amount_usd : Frac) : Money :=
  let currency := currencyOf destination
  let scale := scaleOf currency.code
  let unit := unitOf currency.code
  let raw := amount_usd.mul scale
  { estimate := max 0 (pyRound (raw.divInt unit) * unit), currency := currency.code }

/-- The `baseline_costs` per-category USD table. -/
def baseline_costs : List (String × ℤ) :=
  [ ("Hiking", 0), ("Water Sports", 40), ("Outdoors", 0), ("Wellness", 50),
    ("Leisure", 12), ("Parks", 0), ("Museum", 18), ("History", 0),
    ("Arts", 45), ("Food", 22), ("Class", 55), ("Sightseeing", 0) ]

/-- The closure `activity_cost(category)`:
`to_money(baseline_costs.get(category, 0))`. -/
def activity_cost (destination : String) (category : String) : Money :=
  to_money destination (Frac.ofInt ((baseline_costs.lookup category).getD 0))

/-! ## Day construction (`_generate_itinerary_data` day loop) -/

/-- The time-of-day labels. -/
def labels : List String := ["Morning", "Afternoon", "Evening"]

/-- The `"activity"` sub-dict of a day part. -/
structure PartActivity where
  name : String
  description : String
  category : String
  location : String
deriving DecidableEq, Inhabited

/-- One day part `{"timeOfDay", "activity", "cost"}`. -/
structure Part where
  timeOfDay : String
  activity : PartActivity
  cost : Money
deriving DecidableEq, Inhabited

/-- One day `{"day", "parts", "notes"}`. -/
structure DayPlan where
  day : ℤ
  parts : List Part
  notes : List String
deriving DecidableEq, Inhabited

/-- Model of the inner `while activities[k]["name"] in used_names and
spins < len(activities)` loop: `fuel` is the number of spins still
allowed (initially `activities.length`). -/
def spinLoop (acts : List Activity) (used : List String) : Nat → Nat → Nat
  | k, 0 => k
  | k, Nat.succ fuel =>
    if (acts.getD k default).name ∈ used then
      spinLoop acts used ((k + 1) % acts.length) fuel
    else k

/-- The name picked for slot `j` of a day starting at offset `start`,
given the names already used that day. -/
def pickIndex (acts : List Activity) (start : Nat) (used : List String) (j : Nat) : Nat :=
  spinLoop acts used ((start + j) % acts.length) acts.length

/-- Model of the `for j, label in enumerate(labels)` loop building one
day's parts; `used` models `used_names` (only membership matters, so a
list stands in for the Python set). -/
def buildParts (acts : List Activity) (destination : String) (start : Nat) :
    List String → Nat → List String → List Part
  | [], _, _ => []
  | label :: rest, j, used =>
    let act := acts.getD (pickIndex acts start used j) default
    { timeOfDay := label,
      activity := { name := act.name, description := act.description,
                    category := act.category, location := destination },
      cost := activity_cost destination act.category }
      :: buildParts acts destination start rest (j + 1) (used ++ [act.name])

/-- One iteration of the day loop (`i` is the 0-based day index):
`start = (i * len(labels)) % len(activities)`. -/
def mkDay (acts : List Activity) (destination : String) (i : Nat) : DayPlan :=
  { day := (i : ℤ) + 1,
    parts := buildParts acts destination ((i * labels.length) % acts.length) labels 0 [],
    notes := [ "Pre-book one key activity",
               "Group nearby sights to minimize transit",
               "Consider a day transit pass" ] }

/-! ## Itinerary payload (`_generate_itinerary_data`) -/

/-- The `breakdown` dict of the summary. -/
structure Breakdown where
  flights : Money
  accommodationPerNight : Money
  activities : Money
  localTransportPerDay : Money
  foodPerDay : Money
deriving DecidableEq, Inhabited

/-- The `summary` dict. -/
structure ItinerarySummary where
  estimatedTotalCost : Money
  breakdown : Breakdown
deriving DecidableEq, Inhabited

/-- The itinerary payload dict. -/
structure ItineraryPayload where
  type : String
  version : ℤ
  destination : String
  durationDays : ℤ
  travelStyle : String
  currency : Currency
  days : List DayPlan
  summary : ItinerarySummary
  checklist : ChecklistPayload
deriving DecidableEq, Inhabited

/-- The dict returned by `_generate_itinerary_data`:
`{"data": …, "json_tag": …}`. -/
structure ItineraryResult where
  data : ItineraryPayload
  json_tag : String
deriving DecidableEq, Inhabited

/-- JSON rendering of a day part, field order as in the source. -/
def Part.toJ (p : Part) : Jval :=
  .obj [ ("timeOfDay", .str p.timeOfDay),
         ("activity", .obj [ ("name", .str p.activity.name),
                             ("description", .str p.activity.description),
                             ("category", .str p.activity.category),
                             ("location", .str p.activity.location) ]),
         ("cost", p.cost.toJ) ]

/-- JSON rendering of a day, field order as in the source. -/
def DayPlan.toJ (d : DayPlan) : Jval :=
  .obj [ ("day", .int d.day),
         ("parts", .arr (d.parts.map Part.toJ)),
         ("notes", .arr (d.notes.map Jval.str)) ]

/-- JSON rendering of the breakdown, field order as in the source. -/
def Breakdown.toJ (b : Breakdown) : Jval :=
  .obj [ ("flights", b.flights.toJ),
         ("accommodationPerNight", b.accommodationPerNight.toJ),
         ("activities", b.activities.toJ),
         ("localTransportPerDay", b.localTransportPerDay.toJ),
         ("foodPerDay", b.foodPerDay.toJ) ]

/-- JSON rendering of the itinerary payload, field order as in the
source. -/
def ItineraryPayload.toJ (p : ItineraryPayload) : Jval :=
  .obj [ ("type", .str p.type),
         ("version", .int p.version),
         ("destination", .str p.destination),
         ("durationDays", .int p.durationDays),
         ("travelStyle", .str p.travelStyle),
         ("currency", .obj [("code", .str p.currency.code), ("symbol", .str p.currency.symbol)]),
         ("days", .arr (p.days.map DayPlan.toJ)),
         ("summary", .obj [ ("estimatedTotalCost", p.summary.estimatedTotalCost.toJ),
                            ("breakdown", p.summary.breakdown.toJ) ]),
         ("checklist", p.checklist.toJ) ]

/-- `activities_total`: the summed `int(p["cost"]["estimate"])` over all
day parts. -/
def activitiesTotal (days : List DayPlan) : ℤ :=
  (days.map (fun d => (d.parts.map (fun p => p.cost.estimate)).sum)).sum

/-- Model of `_generate_itinerary_data(destination, duration_days,
travel_style)`. `apiKey` and `net` parametrize the activity adapter as
in `_fetch_activities_from_api`; the source calls it with
`limit=max(6, duration_days * 3)`, which only bounds the abstracted
network result and is absorbed into `net`. -/
def _generate_itinerary_data (apiKey : Option String) (net : List Activity)
    (destination : String) (duration_days : ℤ) (travel_style : String) :
    ItineraryResult :=
  let currency := currencyOf destination
  let fetched := _fetch_activities_from_api apiKey net
  let activities := activitiesFor fetched travel_style
  let days := (List.range duration_days.toNat).map (mkDay activities destination)
  let activities_total := activitiesTotal days
  let flights_money := to_money destination 600
  let acc_per_night_money := to_money destination 120
  let local_transport_per_day_money := to_money destination 12
  let food_per_day_money := to_money destination 35
  let breakdown : Breakdown :=
    { flights := flights_money,
      accommodationPerNight := acc_per_night_money,
      activities := { estimate := activities_total, currency := currency.code },
      localTransportPerDay := local_transport_per_day_money,
      foodPerDay := food_per_day_money }
  let total_estimate :=
    flights_money.estimate
      + acc_per_night_money.estimate * duration_days
      + activities_total
      + local_transport_per_day_money.estimate * duration_days
      + food_per_day_money.estimate * duration_days
  let checklist_data := (_generate_checklist destination "Trip").data
  let payload : ItineraryPayload :=
    { type := "itinerary", version := 1, destination := destination,
      durationDays := duration_days, travelStyle := travel_style,
      currency := currency, days := days,
      summary := { estimatedTotalCost := { estimate := total_estimate, currency := currency.code },
                   breakdown := breakdown },
      checklist := checklist_data }
  { data := payload,
    json_tag := "```json itinerary\n" ++ jdump payload.toJ ++ "\n```" }

/-! ## `research_destination` -/

/-- A knowledge-base field that is a list for the three known entries
but a plain string in the fallback dict; Python iterates both (a string
yields its characters). -/
inductive StrOrList where
  | str : String → StrOrList
  | list : List String → StrOrList
deriving DecidableEq, Inhabited

/-- Model of `chr(10).join([f"- {item}" for item in xs])`: iterating a
list yields its elements, iterating a string yields its characters. -/
def iterBullets : StrOrList → String
  | .list xs => String.intercalate "\n" (xs.map (fun s => "- " ++ s))
  | .str s => String.intercalate "\n" (s.toList.map (fun c => "- " ++ String.mk [c]))

/-- One knowledge-base entry of `destinations_db` (or the fallback
dict). -/
structure DestinationInfo where
  best_time : String
  highlights : StrOrList
  food : StrOrList
  culture : StrOrList
  budget : String
  transport : String
deriving DecidableEq, Inhabited

/-- The static `destinations_db`, in source (insertion) order. -/
def destinations_db : List (String × DestinationInfo) :=
  [ ("tokyo",
      { best_time := "Spring (March-May) or Fall (September-November)",
        highlights := .list ["Senso-ji Temple", "Shibuya Crossing", "Tsukiji Fish Market", "Mount Fuji day trips"],
        food := .list ["Sushi", "Ramen", "Tempura", "Wagyu beef", "Street food in Harajuku"],
        culture := .list ["Traditional tea ceremonies", "Kabuki theater", "Modern art museums", "Anime culture"],
        budget := "$$$ - Expensive but manageable with planning",
        transport := "Excellent public transportation with JR Pass for tourists" }),
    ("paris",
      { best_time := "Late spring (May-June) or early fall (September-October)",
        highlights := .list ["Eiffel Tower", "Louvre Museum", "Notre-Dame", "Champs-Élysées"],
        food := .list ["Croissants", "French wine", "Cheese", "Fine dining", "Café culture"],
        culture := .list ["Art museums", "Historic architecture", "Fashion", "Literary history"],
        budget := "$$$ - Expensive, especially dining and accommodation",
        transport := "Metro system covers the city well" }),
    ("bali",
      { best_time := "Dry season (April-October)",
        highlights := .list ["Uluwatu Temple", "Rice terraces", "Beach clubs", "Volcano hikes"],
        food := .list ["Nasi Goreng", "Satay", "Fresh tropical fruits", "Balinese cuisine"],
        culture := .list ["Hindu temples", "Traditional dance", "Art villages", "Spiritual retreats"],
        budget := "$$ - Very affordable for accommodation and food",
        transport := "Scooter rental popular, private drivers available" }) ]

/-- The fallback dict built when no knowledge-base key matches; the
three templated fields are plain strings. -/
def fallbackInfo (destination : String) : DestinationInfo :=
  { best_time := "Research local climate and peak seasons",
    highlights := .str ("Popular attractions and landmarks in " ++ destination),
    food := .str ("Local cuisine and specialties of " ++ destination),
    culture := .str ("Cultural experiences and traditions in " ++ destination),
    budget := "Research local cost of living and tourist prices",
    transport := "Local transportation options and tourist passes" }

/-- The `for key in destinations_db.keys(): if key in dest_key or
dest_key in key: … break / else: fallback` loop: the first entry in
table order whose key and the lowercased input are substrings of one
another. -/
def matched_entry (destination : String) : Option (String × DestinationInfo) :=
  let dest_key := pyLower destination
  destinations_db.find? (fun kv => py_in kv.1 dest_key || py_in dest_key kv.1)

/-- Model of the tool `research_destination(destination, interests)`.
`interests` is accepted but unused, as in the source. -/
def research_destination (destination : String) (_interests : String := "general") :
    String :=
  let info :=
    match matched_entry destination with
    | some kv => kv.2
    | none => fallbackInfo destination
  "## 📍 " ++ pyTitle destination ++ " Research\n\n**🌟 Best Time to Visit:** "
    ++ info.best_time
    ++ "\n\n**🏛️ Must-See Highlights:**\n" ++ iterBullets info.highlights
    ++ "\n\n**🍽️ Food & Dining:**\n" ++ iterBullets info.food
    ++ "\n\n**🎭 Culture & Experiences:**\n" ++ iterBullets info.culture
    ++ "\n\n**💰 Budget:** " ++ info.budget
    ++ "\n\n**🚌 Transportation:** " ++ info.transport
    ++ "\n"

/-! ## `create_itinerary_template` -/

/-- The `style_activities` table (computed in the source but unused by
the returned template). -/
def style_activities : List (String × List String) :=
  [ ("adventure", ["hiking", "outdoor activities", "adventure sports", "exploration"]),
    ("relaxed", ["leisure time", "spa/wellness", "easy sightseeing", "beach/park time"]),
    ("cultural", ["museums", "historical sites", "local experiences", "cultural events"]),
    ("food", ["restaurant visits", "food tours", "cooking classes", "local markets"]),
    ("balanced", ["sightseeing", "cultural activities", "leisure time", "local experiences"]) ]

/-- The `style_notes` table (computed in the source but unused by the
returned template). -/
def style_notes : List (String × List String) :=
  [ ("adventure",
      ["Check trail conditions and permits", "Pack sufficient water and snacks", "Consider sunrise/sunset timing for views"]),
    ("relaxed",
      ["Reserve spa/tea time in advance", "Plan for cafe breaks nearby", "Leave buffer time between activities"]),
    ("cultural",
      ["Verify museum closing days and hours", "Buy skip-the-line tickets if available", "Learn a few local phrases"]),
    ("food",
      ["Book popular restaurants ahead", "List local specialties to try", "Check market opening hours"]),
    ("balanced",
      ["Pre-book one key activity", "Group nearby sights to minimize transit", "Consider a day transit pass"]) ]

/-- Model of the tool `create_itinerary_template(destination,
duration_days, travel_style)`: caps `duration_days` at 14, embeds the
itinerary JSON tag, one placeholder section per day, and the checklist
JSON tag. -/
def create_itinerary_template (apiKey : Option String) (net : List Activity)
    (destination : String) (duration_days : ℤ) (travel_style : String := "balanced") :
    String :=
  let duration_days := if 14 < duration_days then 14 else duration_days
  let _ := (style_activities.lookup travel_style).getD
    ["sightseeing", "cultural activities", "leisure time", "local experiences"]
  let _ := (style_notes.lookup travel_style).getD
    ["Pre-book one key activity", "Group nearby sights to minimize transit", "Consider a day transit pass"]
  let itinerary := _generate_itinerary_data apiKey net destination duration_days travel_style
  let template :=
    "## 🗓️ " ++ pyTitle destination ++ " Itinerary (" ++ toString duration_days
      ++ " Days)\n\n*Travel Style: " ++ pyTitle travel_style ++ "*\n\n"
      ++ itinerary.json_tag ++ "\n\n"
  let template := template ++ String.join
    ((List.range duration_days.toNat).map (fun day =>
      "### Day " ++ toString (day + 1) ++ "\nSummary: See structured itinerary above.\n\n---\n\n"))
  let checklist := _generate_checklist destination "Trip"
  template ++ checklist.json_tag
    ++ "\n\n## 💡 Tips & Notes\n*Add your own insights and discoveries here...*\n"

/-! ## Dispatch loop (`chat_node`, `route_to_tool_node`, graph) -/

/-- `backend_tool_names`: the names of the four backend tools bound in
`backend_tools`. -/
def backend_tool_names : List String :=
  ["research_destination", "create_itinerary_template", "suggest_improvements", "add_planning_section"]

/-- The routing-relevant abstraction of a model response: the ordered
names of its requested tool calls. -/
structure ModelResponse where
  toolCalls : List String
deriving DecidableEq, Inhabited

/-- Model of `route_to_tool_node(response)`: `False` when `tool_calls`
is falsy, otherwise `True` iff some call's name is a backend tool
name. -/
def route_to_tool_node (response : ModelResponse) : Bool :=
  if response.toolCalls.isEmpty then false
  else response.toolCalls.any (fun n => decide (n ∈ backend_tool_names))

/-- The nodes of the compiled graph; `terminal` is langgraph's `END`. -/
inductive Node where
  | chat_node
  | tool_node
  | terminal
deriving DecidableEq, Inhabited

/-- The conditional transition taken at the end of `chat_node`: go to
`tool_node` when `route_to_tool_node` holds, otherwise to `END`. -/
def chat_node_goto (response : ModelResponse) : Node :=
  if route_to_tool_node response then Node.tool_node else Node.terminal

/-- The static edge `workflow.add_edge("tool_node", "chat_node")`: after
the tool node runs, control re-enters the chat (dispatch) node. -/
def tool_node_goto : Node := Node.chat_node

/-- Modelled from the spec: the tool execution node is
`ToolNode(tools=backend_tools)` from the langgraph library (not part of
this repository's source); it holds only the four backend tools, so of
a response's requested calls exactly those naming a backend tool can
execute there. -/
def tool_node_executes (response : ModelResponse) : List String :=
  response.toolCalls.filter (fun n => decide (n ∈ backend_tool_names))

/-- The grand total described by the specification sentence
"flights (flat), accommodation × nights, summed activity costs, local
transport × days, food × days", reading "number of nights" as
`duration_days - 1` (an `N`-day trip has `N - 1` nights), computed over
the breakdown the program itself produces. This definition follows the
spec's words, to be compared with the source's total. -/
def spec_total_with_nights (apiKey : Option String) (net : List Activity)
    (destination : String) (duration_days : ℤ) (travel_style : String) : ℤ :=
  let b := (_generate_itinerary_data apiKey net destination duration_days travel_style).data.summary.breakdown
  b.flights.estimate
    + b.accommodationPerNight.estimate * (duration_days - 1)
    + b.activities.estimate
    + b.localTransportPerDay.estimate * duration_days
    + b.foodPerDay.estimate * duration_days

/-! ## Helper lemmas -/

/-- The spin loop keeps its index below the pool length. -/
theorem spinLoop_lt (acts : List Activity) (used : List String)
    (hlen : 0 < acts.length) :
    ∀ (fuel k : Nat), k < acts.length → spinLoop acts used k fuel < acts.length := by
  intro fuel
  induction fuel with
  | zero => intro k hk; simpa [spinLoop] using hk
  | succ fuel ih =>
    intro k hk
    simp only [spinLoop]
    by_cases h : (acts.getD k default).name ∈ used
    · rw [if_pos h]; exact ih _ (Nat.mod_lt _ hlen)
    · rw [if_neg h]; exact hk

/-- If within its fuel budget the forward walk from `k` reaches an
index whose activity name is not yet used, the spin loop stops on an
unused name. -/
theorem spinLoop_avoids (acts : List Activity) (used : List String) :
    ∀ (fuel k : Nat), k < acts.length →
      (∃ t, t < fuel ∧ (acts.getD ((k + t) % acts.length) default).name ∉ used) →
      (acts.getD (spinLoop acts used k fuel) default).name ∉ used := by
  intro fuel
  induction fuel with
  | zero =>
    rintro k hk ⟨t, ht, -⟩
    exact absurd ht (Nat.not_lt_zero t)
  | succ fuel ih =>
    rintro k hk ⟨t, ht, hunused⟩
    by_cases h : (acts.getD k default).name ∈ used
    · have hlen : 0 < acts.length := Nat.lt_of_le_of_lt (Nat.zero_le k) hk
      simp only [spinLoop, if_pos h]
      refine ih ((k + 1) % acts.length) (Nat.mod_lt _ hlen) ?_
      have ht0 : t ≠ 0 := by
        intro h0
        subst h0
        rw [Nat.add_zero, Nat.mod_eq_of_lt hk] at hunused
        exact hunused h
      obtain ⟨t', rfl⟩ : ∃ t', t = t' + 1 := ⟨t - 1, by omega⟩
      refine ⟨t', by omega, ?_⟩
      have harg : ((k + 1) % acts.length + t') % acts.length = (k + (t' + 1)) % acts.length := by
        rw [Nat.mod_add_mod]
        congr 1
        omega
      rw [harg]
      exact hunused
    · simp only [spinLoop]
      rw [if_neg h]
      exact h

/-- If the pool has at least three distinct names and at most two are
used, some index of the pool carries an unused name. -/
theorem exists_unused (acts : List Activity) (used : List String)
    (h3 : 3 ≤ (acts.map Activity.name).dedup.length) (hu : used.length ≤ 2) :
    ∃ m, m < acts.length ∧ (acts.getD m default).name ∉ used := by
  by_contra hcon
  push_neg at hcon
  have hsub : ∀ x ∈ (acts.map Activity.name).dedup, x ∈ used := by
    intro x hx
    have hx' : x ∈ acts.map Activity.name := List.mem_dedup.mp hx
    obtain ⟨i, hi, hxi⟩ := List.getElem_of_mem hx'
    have hlen : i < acts.length := by simpa using hi
    have hname : (acts.getD i default).name = x := by
      rw [List.getD_eq_getElem _ _ hlen, ← hxi, List.getElem_map]
    exact hname ▸ hcon i hlen
  have hnd : ((acts.map Activity.name).dedup).Nodup := List.nodup_dedup _
  have h1 : ((acts.map Activity.name).dedup).toFinset.card
      = (acts.map Activity.name).dedup.length := List.toFinset_card_of_nodup hnd
  have h2 : ((acts.map Activity.name).dedup).toFinset ⊆ used.toFinset := by
    intro x hx
    rw [List.mem_toFinset] at hx ⊢
    exact hsub x hx
  have h4 : used.toFinset.card ≤ used.length := used.toFinset_card_le
  have h5 := Finset.card_le_card h2
  omega

/-- Starting below `len`, every index below `len` is reached by fewer
than `len` forward steps modulo `len`. -/
theorem reach_off (len k m : Nat) (hlen : 0 < len) (hk : k < len) (hm : m < len) :
    ∃ t, t < len ∧ (k + t) % len = m := by
  refine ⟨(m + len - k) % len, Nat.mod_lt _ hlen, ?_⟩
  rw [Nat.add_mod_mod]
  have harg : k + (m + len - k) = m + len := by omega
  rw [harg, Nat.add_mod_right, Nat.mod_eq_of_lt hm]

/-- With at least three distinct names in the pool and at most two used
names, each slot pick lands on an unused name. -/
theorem pick_unused (acts : List Activity) (start j : Nat) (used : List String)
    (h3 : 3 ≤ (acts.map Activity.name).dedup.length) (hu : used.length ≤ 2) :
    (acts.getD (pickIndex acts start used j) default).name ∉ used := by
  have hlen : 0 < acts.length := by
    rcases Nat.eq_zero_or_pos acts.length with h0 | h
    · rw [List.length_eq_zero] at h0
      subst h0
      simp [List.dedup] at h3
    · exact h
  obtain ⟨m, hm, hmn⟩ := exists_unused acts used h3 hu
  have hk : (start + j) % acts.length < acts.length := Nat.mod_lt _ hlen
  obtain ⟨t, ht, hteq⟩ := reach_off acts.length ((start + j) % acts.length) m hlen hk hm
  exact spinLoop_avoids acts used acts.length _ hk ⟨t, ht, by rw [hteq]; exact hmn⟩

/-- The part labels of a day are exactly the label list walked by the
inner loop. -/
theorem buildParts_timeOfDay (acts : List Activity) (dest : String) (start : Nat) :
    ∀ (ls : List String) (j : Nat) (used : List String),
      (buildParts acts dest start ls j used).map Part.timeOfDay = ls := by
  intro ls
  induction ls with
  | nil => intro j used; simp [buildParts]
  | cons l rest ih => intro j used; simp [buildParts, ih]

/-- Day-part names accumulate without repetition: as long as fewer than
four names are involved in total and the pool has at least three
distinct names, the names produced by the inner loop are distinct and
avoid the already-used ones. -/
theorem buildParts_names_nodup (acts : List Activity) (dest : String) (start : Nat)
    (h3 : 3 ≤ (acts.map Activity.name).dedup.length) :
    ∀ (ls : List String) (j : Nat) (used : List String),
      used.length + ls.length ≤ 3 →
      ((buildParts acts dest start ls j used).map (fun p => p.activity.name)).Nodup ∧
        ∀ x ∈ (buildParts acts dest start ls j used).map (fun p => p.activity.name),
          x ∉ used := by
  intro ls
  induction ls with
  | nil => intro j used _; simp [buildParts]
  | cons l rest ih =>
    intro j used hlen
    have hu : used.length ≤ 2 := by simp at hlen; omega
    have hn : (acts.getD (pickIndex acts start used j) default).name ∉ used :=
      pick_unused acts start j used h3 hu
    have hrec := ih (j + 1)
      (used ++ [(acts.getD (pickIndex acts start used j) default).name])
      (by simp at hlen ⊢; omega)
    simp only [buildParts, List.map_cons]
    constructor
    · refine List.nodup_cons.mpr ⟨?_, hrec.1⟩
      intro hmem
      have := hrec.2 _ hmem
      simp at this
    · intro x hx
      rcases List.mem_cons.mp hx with hx0 | hx1
      · exact hx0 ▸ hn
      · have := hrec.2 x hx1
        simp at this
        exact this.1

/-! ## Claim theorems -/

/-- C1: for every `duration_days` in [1,14] and every travel style,
`_generate_itinerary_data` returns a payload whose `days` list has
exactly `duration_days` entries, each day has exactly 3 parts
(Morning, Afternoon, Evening), and when the activity pool in use has at
least 3 distinct activity names, no two parts within the same day share
an activity name. -/
theorem c1_itinerary_shape (apiKey : Option String) (net : List Activity)
    (destination travel_style : String) (d : ℤ) (h1 : 1 ≤ d) (h14 : d ≤ 14) :
    (((_generate_itinerary_data apiKey net destination d travel_style).data.days.length : ℤ) = d) ∧
    (∀ day ∈ (_generate_itinerary_data apiKey net destination d travel_style).data.days,
      day.parts.length = 3 ∧ day.parts.map Part.timeOfDay = ["Morning", "Afternoon", "Evening"]) ∧
    (3 ≤ ((activitiesFor (_fetch_activities_from_api apiKey net) travel_style).map Activity.name).dedup.length →
      ∀ day ∈ (_generate_itinerary_data apiKey net destination d travel_style).data.days,
        (day.parts.map (fun p => p.activity.name)).Nodup) := by
  have hdays : (_generate_itinerary_data apiKey net destination d travel_style).data.days
      = (List.range d.toNat).map
          (mkDay (activitiesFor (_fetch_activities_from_api apiKey net) travel_style) destination) := rfl
  refine ⟨?_, ?_, ?_⟩
  · rw [hdays]
    simp only [List.length_map, List.length_range]
    omega
  · intro day hday
    rw [hdays] at hday
    obtain ⟨i, _, rfl⟩ := List.mem_map.mp hday
    constructor
    · have := buildParts_timeOfDay
        (activitiesFor (_fetch_activities_from_api apiKey net) travel_style) destination
        ((i * labels.length) % (activitiesFor (_fetch_activities_from_api apiKey net) travel_style).length)
        labels 0 []
      calc (mkDay (activitiesFor (_fetch_activities_from_api apiKey net) travel_style) destination i).parts.length
          = ((mkDay (activitiesFor (_fetch_activities_from_api apiKey net) travel_style) destination i).parts.map Part.timeOfDay).length := (List.length_map _ _).symm
        _ = labels.length := by rw [show (mkDay (activitiesFor (_fetch_activities_from_api apiKey net) travel_style) destination i).parts = buildParts (activitiesFor (_fetch_activities_from_api apiKey net) travel_style) destination ((i * labels.length) % (activitiesFor (_fetch_activities_from_api apiKey net) travel_style).length) labels 0 [] from rfl, this]
        _ = 3 := rfl
    · exact buildParts_timeOfDay _ _ _ labels 0 []
  · intro h3 day hday
    rw [hdays] at hday
    obtain ⟨i, _, rfl⟩ := List.mem_map.mp hday
    exact (buildParts_names_nodup _ destination _ h3 labels 0 [] (by simp [labels])).1

/-- Witness for C1 at a concrete input: three cultural days with the
static catalog pool, which has three distinct activity names. -/
theorem c1_witness :
    (((_generate_itinerary_data none [] "paris" 3 "cultural").data.days.length : ℤ) = 3) ∧
    (3 ≤ ((activitiesFor (_fetch_activities_from_api none []) "cultural").map Activity.name).dedup.length) ∧
    (∀ day ∈ (_generate_itinerary_data none [] "paris" 3 "cultural").data.days,
      (day.parts.map (fun p => p.activity.name)).Nodup) :=
  ⟨(c1_itinerary_shape none [] "paris" "cultural" 3 (by decide) (by decide)).1,
   by decide,
   (c1_itinerary_shape none [] "paris" "cultural" 3 (by decide) (by decide)).2.2 (by decide)⟩

/-- C2: a model response with no backend-tool call (in particular no
tool calls at all) sends the dispatch loop straight to the terminal
node; a response with at least one backend-tool call routes to the tool
node, whose static edge re-enters the chat node; and of a mixed
backend + frontend pair of calls, only the backend call executes at the
tool node. -/
theorem c2_dispatch_routing (response : ModelResponse) :
    ((∀ n ∈ response.toolCalls, n ∉ backend_tool_names) →
        chat_node_goto response = Node.terminal) ∧
    ((∃ n ∈ response.toolCalls, n ∈ backend_tool_names) →
        chat_node_goto response = Node.tool_node ∧ tool_node_goto = Node.chat_node) ∧
    (∀ b f, b ∈ backend_tool_names → f ∉ backend_tool_names →
        response.toolCalls = [b, f] → tool_node_executes response = [b]) := by
  refine ⟨?_, ?_, ?_⟩
  · intro hnone
    have hfalse : route_to_tool_node response = false := by
      unfold route_to_tool_node
      rcases hcalls : response.toolCalls with - | ⟨c, cs⟩
      · simp
      · rw [if_neg (by simp)]
        rw [List.any_eq_false]
        intro n hn
        have := hnone n (by rw [hcalls]; exact hn)
        simpa using this
    simp [chat_node_goto, hfalse]
  · rintro ⟨n, hn, hnb⟩
    have htrue : route_to_tool_node response = true := by
      unfold route_to_tool_node
      rw [if_neg (by
        simp only [List.isEmpty_iff]
        intro h0
        rw [h0] at hn
        simp at hn)]
      rw [List.any_eq_true]
      exact ⟨n, hn, by simpa using hnb⟩
    exact ⟨by simp [chat_node_goto, htrue], rfl⟩
  · intro b f hb hf hcalls
    unfold tool_node_executes
    rw [hcalls]
    simp [List.filter, hb, hf]

/-- Witness for C2: a response mixing the backend tool
`create_itinerary_template` with the frontend tool `updateDocument`
routes to the tool node and only the backend call executes; responses
with no calls or only frontend calls go to the terminal node. -/
theorem c2_witness :
    chat_node_goto ⟨["create_itinerary_template", "updateDocument"]⟩ = Node.tool_node ∧
    tool_node_executes ⟨["create_itinerary_template", "updateDocument"]⟩ = ["create_itinerary_template"] ∧
    chat_node_goto ⟨[]⟩ = Node.terminal ∧
    chat_node_goto ⟨["updateDocument"]⟩ = Node.terminal :=
  ⟨((c2_dispatch_routing ⟨["create_itinerary_template", "updateDocument"]⟩).2.1
      ⟨"create_itinerary_template", by decide, by decide⟩).1,
   (c2_dispatch_routing ⟨["create_itinerary_template", "updateDocument"]⟩).2.2
      "create_itinerary_template" "updateDocument" (by decide) (by decide) rfl,
   (c2_dispatch_routing ⟨[]⟩).1 (by decide),
   (c2_dispatch_routing ⟨["updateDocument"]⟩).1 (by decide)⟩

/-- C3: for every destination and context, `_generate_checklist`
returns a payload with version 1 and exactly 3 sections in the fixed
order Before You Go, Pack & Prepare, During Trip, containing 7, 6 and 4
items respectively, every item unchecked. -/
theorem c3_checklist_shape (destination context : String) :
    (_generate_checklist destination context).data.version = 1 ∧
    (_generate_checklist destination context).data.sections.map ChecklistSection.title
      = ["Before You Go", "Pack & Prepare", "During Trip"] ∧
    (_generate_checklist destination context).data.sections.map (fun s => s.items.length)
      = [7, 6, 4] ∧
    ∀ s ∈ (_generate_checklist destination context).data.sections,
      ∀ it ∈ s.items, it.checked = false := by
  refine ⟨rfl, rfl, rfl, ?_⟩
  show ∀ s ∈ checklistSections, ∀ it ∈ s.items, it.checked = false
  decide

/-- C4: every Money value produced by the itinerary's conversion has a
non-negative estimate that is a multiple of the destination currency's
rounding unit; the units are 50 for JPY, 1000 for IDR and 1 for USD and
EUR, and the JPY conversion of the baseline 37 is 5550, a multiple of
50. -/
theorem c4_money_rounding (destination : String) (amount_usd : Frac) :
    0 ≤ (to_money destination amount_usd).estimate ∧
    unitOf (currencyOf destination).code ∣ (to_money destination amount_usd).estimate ∧
    unitOf "JPY" = 50 ∧ unitOf "IDR" = 1000 ∧ unitOf "USD" = 1 ∧ unitOf "EUR" = 1 ∧
    (currencyOf "tokyo").code = "JPY" ∧
    (to_money "tokyo" (Frac.ofInt 37)).estimate = 5550 ∧ (50 : ℤ) ∣ 5550 := by
  refine ⟨le_max_left 0 _, ?_, rfl, rfl, rfl, rfl, rfl, by decide, by decide⟩
  show unitOf (currencyOf destination).code ∣
    max 0 (pyRound ((amount_usd.mul (scaleOf (currencyOf destination).code)).divInt
      (unitOf (currencyOf destination).code)) * unitOf (currencyOf destination).code)
  rcases le_or_lt 0 (pyRound ((amount_usd.mul (scaleOf (currencyOf destination).code)).divInt
      (unitOf (currencyOf destination).code)) * unitOf (currencyOf destination).code) with hpos | hneg
  · rw [max_eq_right hpos]
    exact dvd_mul_left _ _
  · rw [max_eq_left (le_of_lt hneg)]
    exact dvd_zero _

/-- C5: with the credential unset the adapter returns the empty list,
on which the generator's activity pool is the static catalog entry for
the travel style, and an unrecognized style falls back to the balanced
catalog. -/
theorem c5_catalog_fallback (net : List Activity) (destination travel_style : String)
    (d : ℤ) :
    _fetch_activities_from_api none net = [] ∧
    activitiesFor (_fetch_activities_from_api none net) travel_style = catalogGet travel_style ∧
    (_generate_itinerary_data none net destination d travel_style).data.days
      = (List.range d.toNat).map (mkDay (catalogGet travel_style) destination) ∧
    (travel_style ∉ ["adventure", "relaxed", "cultural", "food", "balanced"] →
      catalogGet travel_style = balancedActivities) := by
  refine ⟨rfl, rfl, rfl, ?_⟩
  intro h
  simp only [List.mem_cons, List.not_mem_nil, or_false, not_or] at h
  obtain ⟨h1, h2, h3, h4, h5⟩ := h
  have e1 : (travel_style == "adventure") = false := beq_eq_false_iff_ne.mpr h1
  have e2 : (travel_style == "relaxed") = false := beq_eq_false_iff_ne.mpr h2
  have e3 : (travel_style == "cultural") = false := beq_eq_false_iff_ne.mpr h3
  have e4 : (travel_style == "food") = false := beq_eq_false_iff_ne.mpr h4
  have e5 : (travel_style == "balanced") = false := beq_eq_false_iff_ne.mpr h5
  unfold catalogGet catalog
  simp only [List.lookup, e1, e2, e3, e4, e5]
  rfl

/-- Witness for C5 at the unrecognized style "luxury". -/
theorem c5_witness :
    _fetch_activities_from_api none [] = [] ∧
    activitiesFor (_fetch_activities_from_api none []) "luxury" = catalogGet "luxury" ∧
    catalogGet "luxury" = balancedActivities :=
  ⟨(c5_catalog_fallback [] "x" "luxury" 1).1,
   (c5_catalog_fallback [] "x" "luxury" 1).2.1,
   (c5_catalog_fallback [] "x" "luxury" 1).2.2.2 (by decide)⟩

set_option maxRecDepth 10000 in
/-- C6: `research_destination "Tokyo, Japan"` matches the `"tokyo"`
entry by case-insensitive substring matching and its report contains
"Senso-ji Temple"; `research_destination "Atlantis"` matches no entry
and its fallback report contains "Atlantis". -/
theorem c6_research_lookup :
    (matched_entry "Tokyo, Japan").map Prod.fst = some "tokyo" ∧
    py_in "Senso-ji Temple" (research_destination "Tokyo, Japan" "general") = true ∧
    matched_entry "Atlantis" = none ∧
    py_in "Atlantis" (research_destination "Atlantis" "general") = true := by
  decide

set_option maxRecDepth 10000 in
/-- C7 counterexample: at destination "x", one balanced day with the
static pool, the program's grand total is 801 while the claim's formula
(accommodation × nights with nights = duration − 1) gives 681. -/
theorem c7_counterexample :
    (_generate_itinerary_data none [] "x" 1 "balanced").data.summary.estimatedTotalCost.estimate = 801 ∧
    spec_total_with_nights none [] "x" 1 "balanced" = 681 ∧
    (_generate_itinerary_data none [] "x" 1 "balanced").data.summary.estimatedTotalCost.estimate
      ≠ spec_total_with_nights none [] "x" 1 "balanced" := by
  refine ⟨by decide, by decide, by decide⟩

/-- C7 as amended: the grand total equals flights, plus accommodation
per night times the number of days (not nights: the code multiplies by
`duration_days`), plus the summed day-part activity costs, plus local
transport per day times days, plus food per day times days, each
component being the USD baseline converted to the local currency. -/
theorem c7_total_formula (apiKey : Option String) (net : List Activity)
    (destination : String) (d : ℤ) (travel_style : String) :
    (_generate_itinerary_data apiKey net destination d travel_style).data.summary.estimatedTotalCost.estimate
      = (_generate_itinerary_data apiKey net destination d travel_style).data.summary.breakdown.flights.estimate
        + (_generate_itinerary_data apiKey net destination d travel_style).data.summary.breakdown.accommodationPerNight.estimate * d
        + (_generate_itinerary_data apiKey net destination d travel_style).data.summary.breakdown.activities.estimate
        + (_generate_itinerary_data apiKey net destination d travel_style).data.summary.breakdown.localTransportPerDay.estimate * d
        + (_generate_itinerary_data apiKey net destination d travel_style).data.summary.breakdown.foodPerDay.estimate * d ∧
    (_generate_itinerary_data apiKey net destination d travel_style).data.summary.breakdown.activities.estimate
      = activitiesTotal (_generate_itinerary_data apiKey net destination d travel_style).data.days ∧
    (_generate_itinerary_data apiKey net destination d travel_style).data.summary.breakdown.flights
      = to_money destination 600 ∧
    (_generate_itinerary_data apiKey net destination d travel_style).data.summary.breakdown.accommodationPerNight
      = to_money destination 120 ∧
    (_generate_itinerary_data apiKey net destination d travel_style).data.summary.breakdown.localTransportPerDay
      = to_money destination 12 ∧
    (_generate_itinerary_data apiKey net destination d travel_style).data.summary.breakdown.foodPerDay
      = to_money destination 35 :=
  ⟨rfl, rfl, rfl, rfl, rfl, rfl⟩

/-- C8: `create_itinerary_template` with `duration_days = 20` returns
exactly the output it returns with `duration_days = 14`, and generally
any duration above 14 behaves as 14. -/
theorem c8_duration_clamp (apiKey : Option String) (net : List Activity)
    (destination travel_style : String) :
    create_itinerary_template apiKey net destination 20 travel_style
      = create_itinerary_template apiKey net destination 14 travel_style ∧
    ∀ d : ℤ, 14 < d →
      create_itinerary_template apiKey net destination d travel_style
        = create_itinerary_template apiKey net destination 14 travel_style := by
  have h : ∀ d : ℤ, 14 < d →
      create_itinerary_template apiKey net destination d travel_style
        = create_itinerary_template apiKey net destination 14 travel_style := by
    intro d hd
    unfold create_itinerary_template
    rw [if_pos hd, if_neg (lt_irrefl (14 : ℤ))]
  exact ⟨h 20 (by norm_num), h⟩

/-- Witness for C8 at duration 20. -/
theorem c8_witness :
    create_itinerary_template none [] "Rome" 20 "food"
      = create_itinerary_template none [] "Rome" 14 "food" :=
  (c8_duration_clamp none [] "Rome" "food").2 20 (by decide)

set_option maxRecDepth 10000 in
/-- C9: the empty destination does not fall back: the empty lowercased
input is a substring of every knowledge-base key, so the loop matches
the first entry in table order ("tokyo") and the report is the Tokyo
one (it contains "Senso-ji Temple"). -/
theorem c9_empty_destination_matches_tokyo :
    (∀ kv ∈ destinations_db, py_in (pyLower "") kv.1 = true) ∧
    matched_entry "" ≠ none ∧
    (matched_entry "").map Prod.fst = some "tokyo" ∧
    py_in "Senso-ji Temple" (research_destination "" "general") = true := by
  decide

/-- C10: currency resolution uses exact match on the lowercased
destination, so any destination other than exactly "tokyo"/"paris"/
"bali" (case-insensitively) gets USD with scale 1 and rounding unit
1. -/
theorem c10_currency_exact_match (destination : String)
    (ht : pyLower destination ≠ "tokyo") (hp : pyLower destination ≠ "paris")
    (hb : pyLower destination ≠ "bali") :
    currencyOf destination = { code := "USD", symbol := "$" } ∧
    scaleOf (currencyOf destination).code = Frac.ofInt 1 ∧
    unitOf (currencyOf destination).code = 1 := by
  have hcur : currencyOf destination = { code := "USD", symbol := "$" } := by
    have e1 : (pyLower destination == "tokyo") = false := beq_eq_false_iff_ne.mpr ht
    have e2 : (pyLower destination == "paris") = false := beq_eq_false_iff_ne.mpr hp
    have e3 : (pyLower destination == "bali") = false := beq_eq_false_iff_ne.mpr hb
    unfold currencyOf currency_map
    simp only [List.lookup, e1, e2, e3]
    rfl
  refine ⟨hcur, ?_, ?_⟩
  · rw [hcur]
    decide
  · rw [hcur]
    decide

/-- Witness for C10 at "Tokyo, Japan", whose lowercase form is not
exactly "tokyo". -/
theorem c10_witness :
    currencyOf "Tokyo, Japan" = { code := "USD", symbol := "$" } ∧
    scaleOf (currencyOf "Tokyo, Japan").code = Frac.ofInt 1 ∧
    unitOf (currencyOf "Tokyo, Japan").code = 1 :=
  c10_currency_exact_match "Tokyo, Japan" (by decide) (by decide) (by decide)

end Frizzle
